import Mathlib

/-!
Verification of the OSHA Monitor aggregation pipeline (src/app.py and
src/email_digest.py) against its natural-language specification.

The Python code is shallowly embedded:

* Python `datetime.datetime` values are modelled by the `PyDateTime`
  structure below: civil fields plus an optional timezone marker
  (`tzOffsetMinutes = none` models a naive datetime).  Comparison of naive
  datetimes is modelled by comparing `naiveSeconds`, the number of seconds
  since the Unix epoch computed from the civil fields by the standard
  days-from-civil calendar algorithm; on the valid datetimes Python can
  construct this agrees with Python's field-lexicographic comparison.
* `timedelta.days` (used by the code as `(a - b).days`) is floored division
  of the second difference by 86400, matching Python's normalisation of
  `timedelta`.
* `dateutil.parser.parse` is an external library, not part of this
  repository; it is modelled as an explicit parameter
  `parse : String → Option PyDateTime`, `none` meaning the call raises.
* Network requests are modelled by passing each client the outcome of its
  single HTTP request as an `Except FetchFailure payload` value: the
  `FetchFailure` constructors cover a network error, a non-success HTTP
  status (`response.raise_for_status`), and a JSON/XML decode failure.
  All three are caught by the clients' `except` clauses (for the Federal
  Register client, `requests` raises its `JSONDecodeError`, a subclass of
  `RequestException`, on malformed JSON).
* Python dicts built by the normalizers are modelled by the `Document`
  structure; a field that the code may leave entirely absent from the dict
  is an `Option` whose `none` means "key absent", and `pub_date` is an
  `Option (Option PyDateTime)` since the code distinguishes "key absent"
  from "key present with value `None`".
* `list.sort(key=sort_key, reverse=True)` is a stable descending sort; it
  is modelled by `List.mergeSort` (stable) with the comparison
  `sort_key b ≤ sort_key a`.
-/

/-- Python `datetime.datetime`: civil fields plus an optional timezone.
`tzOffsetMinutes = none` models a naive datetime (`tzinfo is None`). -/
structure PyDateTime where
  year : Int
  month : Nat
  day : Nat
  hour : Nat
  minute : Nat
  second : Nat
  tzOffsetMinutes : Option Int
deriving Repr, DecidableEq

/-- Model of `dt.replace(tzinfo=None)`: keep the civil fields, drop the
timezone. -/
def PyDateTime.replaceTzNone (t : PyDateTime) : PyDateTime :=
  { t with tzOffsetMinutes := none }

/-- Days since 1970-01-01 of a civil date (Howard Hinnant's
days-from-civil algorithm, on unbounded integers). -/
def daysFromCivil (y : Int) (m d : Nat) : Int :=
  let y' : Int := if m ≤ 2 then y - 1 else y
  let era : Int := Int.fdiv y' 400
  let yoe : Int := y' - era * 400
  let mp : Int := Int.emod ((m : Int) + 9) 12
  let doy : Int := Int.fdiv (153 * mp + 2) 5 + ((d : Int) - 1)
  let doe : Int := yoe * 365 + Int.fdiv yoe 4 - Int.fdiv yoe 100 + doy
  era * 146097 + doe - 719468

/-- Seconds since the Unix epoch of the civil fields, ignoring the
timezone.  Naive Python datetimes compare exactly as these values do. -/
def PyDateTime.naiveSeconds (t : PyDateTime) : Int :=
  daysFromCivil t.year t.month t.day * 86400
    + (t.hour : Int) * 3600 + (t.minute : Int) * 60 + (t.second : Int)

/-- Model of Python `(a - b).days` for naive datetimes: `timedelta`
normalisation makes `.days` the floor of the difference in days. -/
def timedeltaDays (a b : PyDateTime) : Int :=
  Int.fdiv (a.naiveSeconds - b.naiveSeconds) 86400

/-- Python `datetime.min`: year 1, January 1, midnight, naive. -/
def datetimeMin : PyDateTime := ⟨1, 1, 1, 0, 0, 0, none⟩

/-- Abbreviated month name, as `strftime("%b")` produces. -/
def monthAbbrev : Nat → String
  | 1 => "Jan" | 2 => "Feb" | 3 => "Mar" | 4 => "Apr"
  | 5 => "May" | 6 => "Jun" | 7 => "Jul" | 8 => "Aug"
  | 9 => "Sep" | 10 => "Oct" | 11 => "Nov" | 12 => "Dec"
  | _ => ""

/-- Full month name, as `strftime("%B")` produces. -/
def monthFull : Nat → String
  | 1 => "January" | 2 => "February" | 3 => "March" | 4 => "April"
  | 5 => "May" | 6 => "June" | 7 => "July" | 8 => "August"
  | 9 => "September" | 10 => "October" | 11 => "November" | 12 => "December"
  | _ => ""

/-- Zero-padded two-digit day, as `strftime("%d")` produces. -/
def twoDigits (n : Nat) : String :=
  if n < 10 then "0" ++ toString n else toString n

/-- Full weekday name, as `strftime("%A")` produces (1970-01-01 was a
Thursday). -/
def weekdayName (t : PyDateTime) : String :=
  match (Int.emod (daysFromCivil t.year t.month t.day + 3) 7).toNat with
  | 0 => "Monday" | 1 => "Tuesday" | 2 => "Wednesday" | 3 => "Thursday"
  | 4 => "Friday" | 5 => "Saturday" | _ => "Sunday"

/-- Model of `strftime("%b %Y")`. -/
def strftimeBY (t : PyDateTime) : String :=
  monthAbbrev t.month ++ " " ++ toString t.year

/-- Model of `strftime("%b %d, %Y")`. -/
def strftimeBdY (t : PyDateTime) : String :=
  monthAbbrev t.month ++ " " ++ twoDigits t.day ++ ", " ++ toString t.year

/-- Model of `strftime("%B %d, %Y")`. -/
def strftimeFullBdY (t : PyDateTime) : String :=
  monthFull t.month ++ " " ++ twoDigits t.day ++ ", " ++ toString t.year

/-- Model of `strftime("%A, %B %d, %Y")`. -/
def strftimeADY (t : PyDateTime) : String :=
  weekdayName t ++ ", " ++ monthFull t.month ++ " " ++ twoDigits t.day
    ++ ", " ++ toString t.year

/-- Embedding of `format_time_ago` (src/app.py lines 19-43).  `now` stands
for the `datetime.now()` call.  The body of the Python `try` cannot raise
on any value the surrounding code passes in, so the bare `except` arm
(returning `""`) is unreachable and not modelled. -/
def format_time_ago (now pub_date0 : PyDateTime) : String :=
  let pub_date :=
    if pub_date0.tzOffsetMinutes.isSome then pub_date0.replaceTzNone else pub_date0
  let days_ago := timedeltaDays now pub_date
  if days_ago < 0 then "Upcoming"
  else if days_ago = 0 then "Today"
  else if days_ago = 1 then "Yesterday"
  else if days_ago < 7 then toString days_ago ++ " days ago"
  else if days_ago < 30 then
    let weeks := Int.fdiv days_ago 7
    toString weeks ++ " week" ++ (if 1 < weeks then "s" else "") ++ " ago"
  else if days_ago < 365 then
    let months := Int.fdiv days_ago 30
    toString months ++ " month" ++ (if 1 < months then "s" else "") ++ " ago"
  else strftimeBY pub_date

/-- Relative-time label as the (amended) specification describes it: nine
forms selected by the whole-day difference `d`, the week and month counts
written singular at 1 and plural otherwise, and `d ≥ 365` giving the
abbreviated month plus year of the publication timestamp. -/
def specTimeAgoLabel (d : Int) (t : PyDateTime) : String :=
  if d < 0 then "Upcoming"
  else if d = 0 then "Today"
  else if d = 1 then "Yesterday"
  else if 2 ≤ d ∧ d ≤ 6 then toString d ++ " days ago"
  else if 7 ≤ d ∧ d ≤ 29 then
    let n := Int.fdiv d 7
    toString n ++ (if n = 1 then " week ago" else " weeks ago")
  else if 30 ≤ d ∧ d ≤ 364 then
    let n := Int.fdiv d 30
    toString n ++ (if n = 1 then " month ago" else " months ago")
  else monthAbbrev t.month ++ " " ++ toString t.year

/-- Canonical document record built by the normalizers.  Python uses plain
dicts; `none` in an `Option`-typed field models the key being absent from
the dict, and `pub_date = some none` models the key being present with the
value `None`. -/
structure Document where
  title : String
  abstract : String
  url : String
  pdf_url : String
  source : String
  content_type : String
  pub_date : Option (Option PyDateTime) := none
  pub_date_formatted : Option String := none
  time_ago : Option String := none
  effective_status : Option String := none
deriving Repr, DecidableEq

/-- True when the document has a parsed publication date: the `pub_date`
key is present and is an actual datetime, not `None`. -/
def Document.hasParsedDate (d : Document) : Bool :=
  match d.pub_date with
  | some (some _) => true
  | _ => false

/-- Embedding of the web path's `sort_key` (src/app.py lines 267-274):
`datetime.min` for a missing or `None` date, otherwise the date made
naive.  The returned datetime is represented by its `naiveSeconds`, which
orders naive datetimes exactly as Python compares them. -/
def sort_key (doc : Document) : Int :=
  match doc.pub_date with
  | some (some pub_date) => pub_date.replaceTzNone.naiveSeconds
  | _ => datetimeMin.naiveSeconds

/-- Embedding of `all_documents.sort(key=sort_key, reverse=True)`
(src/app.py line 276): Python's sort is stable, and with `reverse=True` it
is a stable descending sort, i.e. stable merge sort under
`sort_key b ≤ sort_key a`. -/
def sortDocuments (docs : List Document) : List Document :=
  List.mergeSort docs (fun a b => decide (sort_key b ≤ sort_key a))

/-- Blank document used to build concrete test documents. -/
def blankDoc : Document :=
  { title := "", abstract := "", url := "", pdf_url := "",
    source := "", content_type := "" }

/-- Failure of a source fetch: a network error (`requests` exception), a
non-success HTTP status (`raise_for_status`), or a JSON/XML decode
failure.  All three are caught by the clients. -/
inductive FetchFailure where
  | networkError
  | badStatus (code : Nat)
  | parseFailure
deriving Repr, DecidableEq

/-- Raw Federal Register API document as the JSON gives it; `none` models
a missing key (the code reads every key with `doc.get`). -/
structure RawFRDoc where
  title : Option String := none
  type : Option String := none
  abstract : Option String := none
  publication_date : Option String := none
  effective_on : Option String := none
  html_url : Option String := none
  document_number : Option String := none
  pdf_url : Option String := none
deriving Repr, DecidableEq

/-- Raw Federal Register API response body. -/
structure FRPayload where
  results : Option (List RawFRDoc) := none
  count : Option Nat := none
deriving Repr, DecidableEq

/-- Raw RSS `<item>`; `none` models a missing sub-element
(`item.findtext(tag, "")` then defaults to `""`). -/
structure RawRssItem where
  title : Option String := none
  link : Option String := none
  description : Option String := none
  pubDate : Option String := none
deriving Repr, DecidableEq

/-- Model of Python `str.strip()` on the whitespace the feeds contain. -/
def pyStrip (s : String) : String := s.trim

/-- Embedding of the effective-date labelling of `fetch_federal_register`
(src/app.py lines 102-121).  `parse` models `dateutil.parser.parse`
(`none` = the call raises).  The bare `except` yields `""` both when the
parse raises and when comparing an aware parsed date against the naive
`datetime.now()` raises `TypeError`; the two `datetime.now()` calls on
lines 106-107 are modelled as the single instant `now`.  A missing or
empty (falsy) `effective_on` yields `""` via the `else` branch. -/
def effective_status_label (parse : String → Option PyDateTime)
    (now : PyDateTime) (effective_on : Option String) : String :=
  match effective_on with
  | none => ""
  | some s =>
    if s = "" then ""
    else
      match parse s with
      | none => ""
      | some eff_date =>
        if eff_date.tzOffsetMinutes.isSome then ""
        else if now.naiveSeconds < eff_date.naiveSeconds then
          let days_until := timedeltaDays eff_date now
          if days_until = 0 then "Effective today"
          else if days_until = 1 then "Effective tomorrow"
          else if days_until < 30 then
            "Effective in " ++ toString days_until ++ " days"
          else "Effective " ++ strftimeBdY eff_date
        else "Effective since " ++ strftimeBdY eff_date

/-- Embedding of the per-document normalisation loop body of
`fetch_federal_register` (src/app.py lines 81-123): build the base dict,
add the publication-date fields only when `publication_date` is truthy,
and always set `effective_status`. -/
def processFRDoc (parse : String → Option PyDateTime) (now : PyDateTime)
    (doc : RawFRDoc) : Document :=
  let base : Document :=
    { title := doc.title.getD "", abstract := doc.abstract.getD "",
      url := doc.html_url.getD "", pdf_url := doc.pdf_url.getD "",
      source := "Federal Register", content_type := doc.type.getD "" }
  let withPub :=
    match doc.publication_date with
    | some s =>
      if s = "" then base
      else
        match parse s with
        | some pub_date =>
          { base with
            pub_date := some (some pub_date),
            pub_date_formatted := some (strftimeFullBdY pub_date),
            time_ago := some (format_time_ago now pub_date) }
        | none =>
          { base with
            pub_date := some none,
            pub_date_formatted := some s, time_ago := some "" }
    | none => base
  { withPub with
    effective_status := some (effective_status_label parse now doc.effective_on) }

/-- Embedding of `fetch_federal_register` (src/app.py lines 46-129) from
the point the HTTP response is available.  The request parameters (agency,
types, fields, `per_page`, ordering, and the optional upstream year
constraint) only shape the remote query, so they do not appear in the
response processing.  Any caught failure returns `([], 0)`. -/
def fetch_federal_register (parse : String → Option PyDateTime)
    (now : PyDateTime) (response : Except FetchFailure FRPayload) :
    List Document × Nat :=
  match response with
  | .error _ => ([], 0)
  | .ok data =>
    ((data.results.getD []).map (processFRDoc parse now), data.count.getD 0)

/-- Embedding of the per-item normalisation of `fetch_osha_rss`
(src/app.py lines 141-173). -/
def processRssItem (parse : String → Option PyDateTime) (now : PyDateTime)
    (content_type source_name : String) (item : RawRssItem) : Document :=
  let pub_date_str := pyStrip (item.pubDate.getD "")
  let base : Document :=
    { title := pyStrip (item.title.getD ""),
      abstract := pyStrip (item.description.getD ""),
      url := pyStrip (item.link.getD ""), pdf_url := "",
      source := source_name, content_type := content_type,
      effective_status := some "" }
  if pub_date_str = "" then
    { base with
      pub_date := some none, pub_date_formatted := some "",
      time_ago := some "" }
  else
    match parse pub_date_str with
    | some pub_date =>
      { base with
        pub_date := some (some pub_date),
        pub_date_formatted := some (strftimeFullBdY pub_date),
        time_ago := some (format_time_ago now pub_date) }
    | none =>
      { base with
        pub_date := some none, pub_date_formatted := some "",
        time_ago := some "" }

/-- Embedding of `fetch_osha_rss` (src/app.py lines 132-179) from the
point the HTTP response is available; the `except Exception` arm returns
`[]`. -/
def fetch_osha_rss (parse : String → Option PyDateTime) (now : PyDateTime)
    (content_type source_name : String)
    (response : Except FetchFailure (List RawRssItem)) : List Document :=
  match response with
  | .error _ => []
  | .ok items => items.map (processRssItem parse now content_type source_name)

/-- Embedding of the group filters of `index` (src/app.py lines 279-283). -/
def final_rules (docs : List Document) : List Document :=
  docs.filter (fun d => d.content_type == "Rule")

/-- Second group filter of `index`: proposed rules. -/
def proposed_rules (docs : List Document) : List Document :=
  docs.filter (fun d => d.content_type == "Proposed Rule")

/-- Third group filter of `index`: notices. -/
def notices (docs : List Document) : List Document :=
  docs.filter (fun d => d.content_type == "Notice")

/-- Fourth group filter of `index`: interpretations. -/
def interpretations (docs : List Document) : List Document :=
  docs.filter (fun d => d.content_type == "Interpretation")

/-- Fifth group filter of `index`: directives. -/
def directives (docs : List Document) : List Document :=
  docs.filter (fun d => d.content_type == "Directive")

/-- Order-preserving union of the five content-type groups. -/
def fiveGroups (docs : List Document) : List Document :=
  final_rules docs ++ proposed_rules docs ++ notices docs
    ++ interpretations docs ++ directives docs

/-- Enumerated content types of the data-model invariant. -/
def contentTypes : List String :=
  ["Rule", "Proposed Rule", "Notice", "Interpretation", "Directive"]

/-- Effective-status label as the (amended) specification describes it:
an absent or empty effective date, a failed parse, or an aware parsed
date give `""`; an effective timestamp at or before `now` — in particular
an effective date of exactly today, which parses to midnight of the
current day — gives "Effective since <Mon DD, YYYY>"; an effective
timestamp strictly after `now` gives "Effective today",
"Effective tomorrow", "Effective in N days", or "Effective <Mon DD, YYYY>"
according to whole-day difference 0, 1, 2-29, or at least 30. -/
def specEffectiveLabel (now : PyDateTime) (effective_on : Option String)
    (parsed : Option PyDateTime) : String :=
  match effective_on with
  | none => ""
  | some s =>
    if s = "" then ""
    else
      match parsed with
      | none => ""
      | some e =>
        if e.tzOffsetMinutes.isSome then ""
        else if e.naiveSeconds ≤ now.naiveSeconds then
          "Effective since " ++ strftimeBdY e
        else
          let d := timedeltaDays e now
          if d = 0 then "Effective today"
          else if d = 1 then "Effective tomorrow"
          else if 2 ≤ d ∧ d ≤ 29 then "Effective in " ++ toString d ++ " days"
          else "Effective " ++ strftimeBdY e

/-- Model of Python `int(str)`: optional surrounding whitespace, an
optional sign, then decimal digits; `none` models `ValueError`.
(Digit-group underscores are not modelled; the year strings at issue
contain none.) -/
def pyInt (s : String) : Option Int :=
  let t := s.trim
  if t.startsWith "-" then (t.drop 1).toNat?.map (fun n => -(n : Int))
  else if t.startsWith "+" then (t.drop 1).toNat?.map (fun n => (n : Int))
  else t.toNat?.map (fun n => (n : Int))

/-- Embedding of the RSS year filter of `index` (src/app.py lines 244-249
and 256-261): when a year is given (truthy) and is not the literal "all",
try `int(year)`; on success keep exactly the documents whose `pub_date`
is truthy (a datetime, not `None`) with that year, and if `int` raises
drop the constraint (`except: pass`). -/
def filter_rss_by_year (year : String) (docs : List Document) : List Document :=
  if year ≠ "" ∧ year ≠ "all" then
    match pyInt year with
    | some year_int =>
      docs.filter (fun d =>
        match d.pub_date with
        | some (some t) => t.year == year_int
        | _ => false)
    | none => docs
  else docs

/-- Outcomes of the up-to-five upstream requests of one `index` request. -/
structure IndexResponses where
  rulesResp : Except FetchFailure FRPayload
  proposedResp : Except FetchFailure FRPayload
  noticesResp : Except FetchFailure FRPayload
  interpsResp : Except FetchFailure (List RawRssItem)
  directsResp : Except FetchFailure (List RawRssItem)
deriving Repr

/-- Embedding of the aggregation of `index` (src/app.py lines 200-286):
fetch the sources selected by the content filter, year-filter the RSS
sources, union, total the counts, and sort descending by date. -/
def indexDocuments (parse : String → Option PyDateTime) (now : PyDateTime)
    (content_filter year : String) (r : IndexResponses) :
    List Document × Nat :=
  let frRules :=
    if content_filter = "all" ∨ content_filter = "rules" then
      fetch_federal_register parse now r.rulesResp
    else ([], 0)
  let frProposed :=
    if content_filter = "all" ∨ content_filter = "proposed" then
      fetch_federal_register parse now r.proposedResp
    else ([], 0)
  let frNotices :=
    if content_filter = "all" ∨ content_filter = "notices" then
      fetch_federal_register parse now r.noticesResp
    else ([], 0)
  let interp :=
    if content_filter = "all" ∨ content_filter = "interpretations" then
      filter_rss_by_year year
        (fetch_osha_rss parse now "Interpretation" "OSHA Interpretations" r.interpsResp)
    else []
  let direct :=
    if content_filter = "all" ∨ content_filter = "directives" then
      filter_rss_by_year year
        (fetch_osha_rss parse now "Directive" "OSHA Directives" r.directsResp)
    else []
  let all_documents := frRules.1 ++ frProposed.1 ++ frNotices.1 ++ interp ++ direct
  let total_count := frRules.2 + frProposed.2 + frNotices.2 + interp.length + direct.length
  (sortDocuments all_documents, total_count)

/-- Email-path document dict (src/email_digest.py): all fields are always
present, and `pub_date` is already the formatted display string. -/
structure EmailDocument where
  title : String
  type : String
  abstract : String
  url : String
  pdf_url : String
  pub_date : String
  effective_on : String
  source : String
deriving Repr, DecidableEq

/-- Embedding of `fetch_recent_federal_register` (src/email_digest.py
lines 23-66) from the point the HTTP response is available.  The cutoff
`datetime.now() - timedelta(days=days)` is the instant `days` days
(exactly) before `now`; the inner `try` skips a document whose
publication date fails to parse (`except: pass`). -/
def fetch_recent_federal_register (parse : String → Option PyDateTime)
    (now : PyDateTime) (days : Nat)
    (response : Except FetchFailure FRPayload) : List EmailDocument :=
  let cutoffSeconds := now.naiveSeconds - (days : Int) * 86400
  match response with
  | .error _ => []
  | .ok data =>
    (data.results.getD []).filterMap (fun doc =>
      match doc.publication_date with
      | some s =>
        if s = "" then none
        else
          match parse s with
          | some pub_date =>
            if cutoffSeconds ≤ pub_date.replaceTzNone.naiveSeconds then
              some {
                title := doc.title.getD "", type := doc.type.getD "",
                abstract := doc.abstract.getD "", url := doc.html_url.getD "",
                pdf_url := doc.pdf_url.getD "",
                pub_date := strftimeFullBdY pub_date,
                effective_on := doc.effective_on.getD "",
                source := "Federal Register" }
            else none
          | none => none
      | none => none)

/-- Embedding of `fetch_recent_rss` (src/email_digest.py lines 69-103)
from the point the HTTP response is available. -/
def fetch_recent_rss (parse : String → Option PyDateTime) (now : PyDateTime)
    (content_type : String) (days : Nat)
    (response : Except FetchFailure (List RawRssItem)) : List EmailDocument :=
  let cutoffSeconds := now.naiveSeconds - (days : Int) * 86400
  match response with
  | .error _ => []
  | .ok items =>
    items.filterMap (fun item =>
      let pub_date_str := pyStrip (item.pubDate.getD "")
      if pub_date_str = "" then none
      else
        match parse pub_date_str with
        | some pub_date =>
          if cutoffSeconds ≤ pub_date.replaceTzNone.naiveSeconds then
            some {
              title := pyStrip (item.title.getD ""), type := content_type,
              abstract := pyStrip (item.description.getD ""),
              url := pyStrip (item.link.getD ""), pdf_url := "",
              pub_date := strftimeFullBdY pub_date, effective_on := "",
              source := "OSHA.gov" }
          else none
        | none => none)

/-- Embedding of `get_all_recent_documents` (src/email_digest.py lines
106-122): Federal Register, then interpretations, then directives. -/
def get_all_recent_documents (parse : String → Option PyDateTime)
    (now : PyDateTime) (days : Nat)
    (frResp : Except FetchFailure FRPayload)
    (interpResp directResp : Except FetchFailure (List RawRssItem)) :
    List EmailDocument :=
  fetch_recent_federal_register parse now days frResp
    ++ fetch_recent_rss parse now "Interpretation" days interpResp
    ++ fetch_recent_rss parse now "Directive" days directResp

/-- Embedding of `format_type_label` (src/email_digest.py lines 125-134):
dict lookup with the key itself as the default. -/
def format_type_label (doc_type : String) : String :=
  if doc_type = "Rule" then "Final Rule"
  else if doc_type = "Proposed Rule" then "Proposed Rule"
  else if doc_type = "Notice" then "Notice"
  else if doc_type = "Interpretation" then "Letter of Interpretation"
  else if doc_type = "Directive" then "Directive"
  else doc_type

/-- Embedding of the abstract truncation of `build_email_html`
(src/email_digest.py line 176): the first 300 characters plus an ellipsis
when longer than 300 characters, unchanged otherwise.  Python `len` and
slicing count code points, as `String.length` and `String.take` do. -/
def truncated_abstract (abstract : String) : String :=
  if abstract.length > 300 then abstract.take 300 ++ "..." else abstract

/-- Fixed leading part of the HTML digest body (src/email_digest.py lines
149-163). -/
def emailHtmlHeader (now : PyDateTime) (n : Nat) : String :=
  "\n    <!DOCTYPE html>\n    <html>\n    <head>\n        <meta charset=\"utf-8\">\n        <meta name=\"viewport\" content=\"width=device-width, initial-scale=1.0\">\n    </head>\n    <body style=\"font-family: -apple-system, BlinkMacSystemFont, \x27Segoe UI\x27, Roboto, sans-serif; line-height: 1.6; color: #333; max-width: 600px; margin: 0 auto; padding: 20px;\">\n        <h1 style=\"color: #1a365d; font-size: 24px; margin-bottom: 5px;\">OSHA Monitor</h1>\n        <p style=\"color: #666; margin-top: 0;\">"
    ++ strftimeADY now
    ++ "</p>\n\n        <p style=\"background: #f0f7ff; padding: 12px 16px; border-radius: 6px; border-left: 4px solid #3182ce;\">\n            <strong>"
    ++ toString n ++ " new item" ++ (if n ≠ 1 then "s" else "")
    ++ "</strong> published since yesterday\n        </p>\n    "

/-- One rendered document of an HTML section (src/email_digest.py lines
175-191). -/
def renderHtmlItem (doc : EmailDocument) : String :=
  "\n            <div style=\"margin-bottom: 20px; padding-bottom: 20px; border-bottom: 1px solid #eee;\">\n                <a href=\""
    ++ doc.url
    ++ "\" style=\"color: #2c5282; text-decoration: none; font-weight: 600; font-size: 16px;\">\n                    "
    ++ doc.title
    ++ "\n                </a>\n                <p style=\"color: #666; font-size: 14px; margin: 8px 0;\">\n                    "
    ++ truncated_abstract doc.abstract
    ++ "\n                </p>\n                <p style=\"font-size: 13px; color: #888; margin: 0;\">\n                    Published "
    ++ doc.pub_date ++ "\n                    "
    ++ (if doc.effective_on ≠ "" then " · Effective " ++ doc.effective_on else "")
    ++ "\n                </p>\n            </div>\n            "

/-- Heading of one HTML section (src/email_digest.py lines 169-173). -/
def section_heading (title color : String) (n : Nat) : String :=
  "\n        <h2 style=\"color: " ++ color
    ++ "; font-size: 18px; margin-top: 30px; margin-bottom: 15px; padding-bottom: 8px; border-bottom: 2px solid "
    ++ color ++ ";\">\n            " ++ title ++ " ("
    ++ toString n ++ ")\n        </h2>\n        "

/-- Embedding of `render_section` (src/email_digest.py lines 165-193): an
empty group contributes nothing; a non-empty group contributes a heading
with its count and its items in order. -/
def render_section (title : String) (items : List EmailDocument)
    (color : String) : String :=
  if items = [] then ""
  else
    items.foldl (fun acc doc => acc ++ renderHtmlItem doc)
      (section_heading title color items.length)

/-- Fixed trailing part of the HTML digest body (src/email_digest.py
lines 201-209). -/
def emailHtmlFooter : String :=
  "\n        <hr style=\"border: none; border-top: 1px solid #eee; margin: 30px 0;\">\n        <p style=\"font-size: 13px; color: #888; text-align: center;\">\n            <a href=\"https://osha-monitor.onrender.com\" style=\"color: #3182ce;\">View all updates</a> ·\n            Sent by OSHA Monitor\n        </p>\n    </body>\n    </html>\n    "

/-- Embedding of `build_email_html` (src/email_digest.py lines 137-211):
group by type, then emit the sections in the fixed display order Final
Rules, Proposed Rules, Letters of Interpretation, Directives, Notices. -/
def build_email_html (now : PyDateTime) (documents : List EmailDocument) :
    String :=
  let finalRules := documents.filter (fun d => d.type == "Rule")
  let proposed := documents.filter (fun d => d.type == "Proposed Rule")
  let noticeDocs := documents.filter (fun d => d.type == "Notice")
  let interpDocs := documents.filter (fun d => d.type == "Interpretation")
  let directDocs := documents.filter (fun d => d.type == "Directive")
  emailHtmlHeader now documents.length
    ++ render_section "Final Rules" finalRules "#c53030"
    ++ render_section "Proposed Rules" proposed "#dd6b20"
    ++ render_section "Letters of Interpretation" interpDocs "#2c7a7b"
    ++ render_section "Directives" directDocs "#5a67d8"
    ++ render_section "Notices" noticeDocs "#718096"
    ++ emailHtmlFooter

/-- Fixed leading part of the plain-text digest body (src/email_digest.py
lines 217-221). -/
def emailTextHeader (now : PyDateTime) (n : Nat) : String :=
  "OSHA Monitor - " ++ strftimeADY now ++ "\n"
    ++ "========================================" ++ "\n\n"
    ++ toString n ++ " new item" ++ (if n ≠ 1 then "s" else "")
    ++ " published since yesterday\n\n"

/-- One rendered document of the plain-text body (src/email_digest.py
lines 223-226). -/
def renderTextItem (doc : EmailDocument) : String :=
  "[" ++ format_type_label doc.type ++ "] " ++ doc.title ++ "\n"
    ++ "Published: " ++ doc.pub_date ++ "\n"
    ++ "Link: " ++ doc.url ++ "\n\n"

/-- Fixed trailing part of the plain-text digest body
(src/email_digest.py lines 228-229). -/
def emailTextFooter : String :=
  "----------------------------------------" ++ "\n"
    ++ "View all: https://osha-monitor.onrender.com\n"

/-- Embedding of `build_email_text` (src/email_digest.py lines 214-231):
header, then the documents in input order, then the footer. -/
def build_email_text (now : PyDateTime) (documents : List EmailDocument) :
    String :=
  (documents.foldl (fun acc doc => acc ++ renderTextItem doc)
    (emailTextHeader now documents.length)) ++ emailTextFooter

/-- Message handed to the outbound email transport. -/
structure EmailPayload where
  sender : String
  toAddrs : List String
  subject : String
  html : String
  text : String
deriving Repr, DecidableEq

/-- Embedding of `send_digest` (src/email_digest.py lines 234-268).  The
first component of the result is the message handed to the transport
(`none` = the transport was never invoked), the second is the returned
boolean.  `transport` models `resend.Emails.send` (`.error` = it raises);
a missing or empty (falsy) `RESEND_API_KEY` fails before fetching. -/
def send_digest (api_key : Option String) (alert_email from_email : String)
    (parse : String → Option PyDateTime) (now : PyDateTime) (days : Nat)
    (frResp : Except FetchFailure FRPayload)
    (interpResp directResp : Except FetchFailure (List RawRssItem))
    (transport : EmailPayload → Except Unit Unit) :
    Option EmailPayload × Bool :=
  match api_key with
  | none => (none, false)
  | some k =>
    if k = "" then (none, false)
    else
      let documents :=
        get_all_recent_documents parse now days frResp interpResp directResp
      if documents = [] then (none, true)
      else
        let payload : EmailPayload :=
          { sender := from_email, toAddrs := [alert_email],
            subject := "OSHA Monitor: " ++ toString documents.length
              ++ " new update" ++ (if documents.length ≠ 1 then "s" else ""),
            html := build_email_html now documents,
            text := build_email_text now documents }
        match transport payload with
        | .ok _ => (some payload, true)
        | .error _ => (some payload, false)

/-- Concatenation of a list of strings, in order. -/
def concatStrings (l : List String) : String := l.foldr (· ++ ·) ""

/-- Concrete final-rule document for the digest-body theorems. -/
def ruleEmailDoc : EmailDocument :=
  { title := "Rule title", type := "Rule", abstract := "rule abstract",
    url := "https://example.gov/rule", pdf_url := "",
    pub_date := "October 10, 2026", effective_on := "",
    source := "Federal Register" }

/-- Concrete notice document for the digest-body theorems. -/
def noticeEmailDoc : EmailDocument :=
  { title := "Notice title", type := "Notice", abstract := "notice abstract",
    url := "https://example.gov/notice", pdf_url := "",
    pub_date := "October 11, 2026", effective_on := "",
    source := "Federal Register" }

/-- Concrete document list for the sorting witness: a dateless document
listed before a dated one. -/
def docsForSortWitness : List Document :=
  [{ blankDoc with pub_date := some none },
   { blankDoc with pub_date := some (some ⟨2026, 5, 1, 0, 0, 0, none⟩) },
   { blankDoc with pub_date := some (some ⟨2025, 5, 1, 12, 30, 0, none⟩) }]

/-- Concrete document list for the grouping witness, with every content
type represented and one duplicate type. -/
def docsForGroupWitness : List Document :=
  [{ blankDoc with content_type := "Rule" },
   { blankDoc with content_type := "Notice" },
   { blankDoc with content_type := "Directive" },
   { blankDoc with content_type := "Rule" },
   { blankDoc with content_type := "Proposed Rule" },
   { blankDoc with content_type := "Interpretation" }]

theorem week_string_eq (w : Int) (hw : 1 ≤ w) :
    toString w ++ " week" ++ (if 1 < w then "s" else "") ++ " ago"
      = toString w ++ (if w = 1 then " week ago" else " weeks ago") := by
  rcases lt_or_eq_of_le hw with h | h
  · rw [if_pos h, if_neg (by omega)]
    rw [String.append_assoc, String.append_assoc]
    rfl
  · rw [← h]
    decide

theorem month_string_eq (w : Int) (hw : 1 ≤ w) :
    toString w ++ " month" ++ (if 1 < w then "s" else "") ++ " ago"
      = toString w ++ (if w = 1 then " month ago" else " months ago") := by
  rcases lt_or_eq_of_le hw with h | h
  · rw [if_pos h, if_neg (by omega)]
    rw [String.append_assoc, String.append_assoc]
    rfl
  · rw [← h]
    decide

/-- C1 counterexample: at a whole-day difference of exactly 7 the code
produces the singular label "1 week ago", not "1 weeks ago" as the claim
states, and at exactly 30 days it produces "1 month ago", not
"1 months ago". -/
theorem format_time_ago_boundary_singular :
    timedeltaDays ⟨2026, 10, 12, 0, 0, 0, none⟩ ⟨2026, 10, 5, 0, 0, 0, none⟩ = 7
      ∧ format_time_ago ⟨2026, 10, 12, 0, 0, 0, none⟩ ⟨2026, 10, 5, 0, 0, 0, none⟩
          = "1 week ago"
      ∧ format_time_ago ⟨2026, 10, 12, 0, 0, 0, none⟩ ⟨2026, 10, 5, 0, 0, 0, none⟩
          ≠ "1 weeks ago"
      ∧ timedeltaDays ⟨2026, 10, 12, 0, 0, 0, none⟩ ⟨2026, 9, 12, 0, 0, 0, none⟩ = 30
      ∧ format_time_ago ⟨2026, 10, 12, 0, 0, 0, none⟩ ⟨2026, 9, 12, 0, 0, 0, none⟩
          = "1 month ago"
      ∧ format_time_ago ⟨2026, 10, 12, 0, 0, 0, none⟩ ⟨2026, 9, 12, 0, 0, 0, none⟩
          ≠ "1 months ago" := by decide

/-- C1 (amended): for every publication timestamp and current time (made
naive by stripping any timezone), the relative-time label equals the
nine-form specification label selected by the whole-day difference, with
the boundary at exactly 7 days giving "1 week ago" (singular) and at
exactly 30 days "1 month ago" (singular): the week and month counts are
pluralized only when greater than one. -/
theorem format_time_ago_matches_spec_label (now t : PyDateTime) :
    format_time_ago now t = specTimeAgoLabel (timedeltaDays now t.replaceTzNone) t := by
  have hdt : timedeltaDays now (if t.tzOffsetMinutes.isSome then t.replaceTzNone else t)
      = timedeltaDays now t.replaceTzNone := by
    cases h : t.tzOffsetMinutes.isSome
    · rfl
    · rfl
  have hby : strftimeBY (if t.tzOffsetMinutes.isSome then t.replaceTzNone else t)
      = monthAbbrev t.month ++ " " ++ toString t.year := by
    cases h : t.tzOffsetMinutes.isSome
    · rfl
    · rfl
  simp only [format_time_ago, specTimeAgoLabel, hdt, hby]
  set d := timedeltaDays now t.replaceTzNone with hd
  by_cases h0 : d < 0
  · simp [h0]
  by_cases h1 : d = 0
  · simp [h0, h1]
  by_cases h2 : d = 1
  · simp [h0, h1, h2]
  by_cases h3 : d < 7
  · have c1 : 2 ≤ d ∧ d ≤ 6 := by omega
    simp [h0, h1, h2, h3, c1]
  by_cases h4 : d < 30
  · have c1 : ¬(2 ≤ d ∧ d ≤ 6) := by omega
    have c2 : 7 ≤ d ∧ d ≤ 29 := by omega
    have hw : 1 ≤ Int.fdiv d 7 := by
      rw [Int.fdiv_eq_ediv _ (by omega : (0:Int) ≤ 7)]
      omega
    simp only [if_neg h0, if_neg h1, if_neg h2, if_neg h3, if_pos h4,
      if_neg c1, if_pos c2]
    exact week_string_eq _ hw
  by_cases h5 : d < 365
  · have c1 : ¬(2 ≤ d ∧ d ≤ 6) := by omega
    have c2 : ¬(7 ≤ d ∧ d ≤ 29) := by omega
    have c3 : 30 ≤ d ∧ d ≤ 364 := by omega
    have hw : 1 ≤ Int.fdiv d 30 := by
      rw [Int.fdiv_eq_ediv _ (by omega : (0:Int) ≤ 30)]
      omega
    simp only [if_neg h0, if_neg h1, if_neg h2, if_neg h3, if_neg h4, if_pos h5,
      if_neg c1, if_neg c2, if_pos c3]
    exact month_string_eq _ hw
  · have c1 : ¬(2 ≤ d ∧ d ≤ 6) := by omega
    have c2 : ¬(7 ≤ d ∧ d ≤ 29) := by omega
    have c3 : ¬(30 ≤ d ∧ d ≤ 364) := by omega
    simp only [if_neg h0, if_neg h1, if_neg h2, if_neg h3, if_neg h4, if_neg h5,
      if_neg c1, if_neg c2, if_neg c3]

theorem sortDocuments_sorted (docs : List Document) :
    (sortDocuments docs).Pairwise (fun a b => sort_key b ≤ sort_key a) := by
  have h := @List.sorted_mergeSort Document
    (fun a b : Document => decide (sort_key b ≤ sort_key a))
    (fun a b c hab hbc => by
      simp only [decide_eq_true_eq] at *
      omega)
    (fun a b => by
      simp only [Bool.or_eq_true, decide_eq_true_eq]
      omega)
    docs
  exact h.imp (by simp)

theorem sortDocuments_perm (docs : List Document) :
    (sortDocuments docs).Perm docs :=
  List.mergeSort_perm docs _

/-- C2 counterexample: a document with no parsed date ties with a document
dated exactly `datetime.min` (both sort keys are `datetime.min`), and the
stable sort leaves the dateless document *before* the dated one, so a
dateless document is not always placed after every dated document. -/
theorem sort_dateless_before_dated_at_min :
    sortDocuments [{ blankDoc with pub_date := some none },
        { blankDoc with pub_date := some (some datetimeMin) }]
      = [{ blankDoc with pub_date := some none },
        { blankDoc with pub_date := some (some datetimeMin) }]
      ∧ ({ blankDoc with pub_date := some none } : Document).hasParsedDate = false
      ∧ ({ blankDoc with pub_date := some (some datetimeMin) } : Document).hasParsedDate
          = true := by
  refine ⟨?_, rfl, rfl⟩
  exact List.mergeSort_of_sorted (by decide)

/-- C2 (amended): the web aggregator's sort orders the documents by
publication date descending, comparing dates made naive (`sort_key`), and
is a permutation of its input; and provided every parsed publication date
is strictly later than `datetime.min` — as every real-world date is — every
document lacking a parsed date is placed after every document that has
one.  (A missing date sorts as `datetime.min`, so it ties with, rather
than falls strictly below, a document dated exactly `datetime.min`; the
stable sort then keeps input order, which is the one exception to "sorts
last".) -/
theorem sortDocuments_dateless_last (docs : List Document)
    (h : ∀ d ∈ docs, d.hasParsedDate = true →
      datetimeMin.naiveSeconds < sort_key d) :
    (sortDocuments docs).Pairwise (fun a b => sort_key b ≤ sort_key a)
      ∧ (sortDocuments docs).Perm docs
      ∧ (sortDocuments docs).Pairwise
          (fun a b => b.hasParsedDate = true → a.hasParsedDate = true) := by
  refine ⟨sortDocuments_sorted docs, sortDocuments_perm docs, ?_⟩
  have hmem : ∀ d ∈ sortDocuments docs, d ∈ docs :=
    fun d hd => (sortDocuments_perm docs).mem_iff.mp hd
  refine (sortDocuments_sorted docs).imp_of_mem ?_
  intro a b ha hb hab hbdate
  by_contra hadate
  have hka : sort_key a = datetimeMin.naiveSeconds := by
    unfold sort_key
    unfold Document.hasParsedDate at hadate
    match hpd : a.pub_date with
    | some (some t) => rw [hpd] at hadate; simp at hadate
    | some none => rfl
    | none => rfl
  have hkb : datetimeMin.naiveSeconds < sort_key b := h b (hmem b hb) hbdate
  omega

theorem count_filter_of_neg {α : Type} [DecidableEq α] {p : α → Bool} {a : α}
    (h : ¬ p a = true) (l : List α) : List.count a (l.filter p) = 0 :=
  List.count_eq_zero.mpr (fun hm => h (List.of_mem_filter hm))

theorem count_filter_eq {α : Type} [DecidableEq α] (p : α → Bool) (a : α)
    (l : List α) :
    List.count a (l.filter p) = if p a = true then List.count a l else 0 := by
  by_cases h : p a = true
  · rw [if_pos h]
    exact List.count_filter h
  · rw [if_neg h]
    exact count_filter_of_neg h l

/-- C3 counterexample: the Federal Register normalizer copies the raw
`type` string verbatim into `content_type`, so a raw record whose `type`
is not one of the five enumerated values (here an absent `type`, read as
`""`) yields a document that falls into none of the five groups: the
union of the groups of that one-document list is empty, not the list
itself, so grouping the normalizer's actual output need not be a
partition. -/
theorem fiveGroups_not_partition_for_raw_type :
    ((fetch_federal_register (fun _ => none) ⟨2026, 10, 12, 0, 0, 0, none⟩
        (.ok { results := some [{ title := some "t" }], count := some 1 })).1.map
          (fun d => d.content_type)) = [""]
      ∧ fiveGroups ((fetch_federal_register (fun _ => none)
          ⟨2026, 10, 12, 0, 0, 0, none⟩
          (.ok { results := some [{ title := some "t" }], count := some 1 })).1) = []
      ∧ (fetch_federal_register (fun _ => none) ⟨2026, 10, 12, 0, 0, 0, none⟩
          (.ok { results := some [{ title := some "t" }], count := some 1 })).1 ≠ [] := by
  refine ⟨rfl, rfl, ?_⟩
  decide

/-- C3 (amended): for every document list satisfying the data-model
invariant that `content_type` is one of the five enumerated values — which
RSS-normalized documents always do, while Federal-Register-normalized
documents do exactly when the raw `type` is one of the five — the five
groups are a partition: their order-preserving union is a permutation of
the input, and each group is a sublist (order preserved) of the input. -/
theorem fiveGroups_partition (docs : List Document)
    (h : ∀ d ∈ docs, d.content_type ∈ contentTypes) :
    (fiveGroups docs).Perm docs
      ∧ (final_rules docs).Sublist docs
      ∧ (proposed_rules docs).Sublist docs
      ∧ (notices docs).Sublist docs
      ∧ (interpretations docs).Sublist docs
      ∧ (directives docs).Sublist docs := by
  refine ⟨?_, List.filter_sublist _, List.filter_sublist _, List.filter_sublist _,
    List.filter_sublist _, List.filter_sublist _⟩
  rw [List.perm_iff_count]
  intro a
  simp only [fiveGroups, final_rules, proposed_rules, notices, interpretations,
    directives, List.count_append]
  by_cases ha : a ∈ docs
  · have hctype := h a ha
    simp only [contentTypes, List.mem_cons, List.not_mem_nil, or_false] at hctype
    rcases hctype with h1 | h1 | h1 | h1 | h1 <;>
      simp [count_filter_eq, h1]
  · have hz : docs.count a = 0 := List.count_eq_zero.mpr ha
    have hle := fun p : Document → Bool =>
      Nat.le_zero.mp (hz ▸ (List.filter_sublist (l := docs) (p := p)).count_le a)
    rw [hle, hle, hle, hle, hle, hz]

/-- C4 counterexample: an effective date of exactly today parses to
midnight of the current day, which is not strictly after `datetime.now()`,
so the code labels it "Effective since <Mon DD, YYYY>", not
"Effective today" as the claim states. -/
theorem effective_today_yields_since :
    effective_status_label (fun _ => some ⟨2026, 10, 12, 0, 0, 0, none⟩)
        ⟨2026, 10, 12, 10, 0, 0, none⟩ (some "2026-10-12")
      = "Effective since Oct 12, 2026"
      ∧ effective_status_label (fun _ => some ⟨2026, 10, 12, 0, 0, 0, none⟩)
          ⟨2026, 10, 12, 10, 0, 0, none⟩ (some "2026-10-12")
        ≠ "Effective today" := by decide

/-- C4 (amended): the effective-status label of a Federal Register
document always equals the specification label: absent effective date (or
one the parser rejects) gives `""`; an effective timestamp strictly after
`now` gives "Effective today" / "Effective tomorrow" /
"Effective in N days" / "Effective <Mon DD, YYYY>" by whole-day
difference 0 / 1 / 2-29 / at least 30; an effective timestamp at or
before `now` — in particular an effective date of exactly today, parsed
at midnight — gives "Effective since <Mon DD, YYYY>"; and every
exception during the computation yields `""` rather than propagating. -/
theorem effective_status_matches_spec_label
    (parse : String → Option PyDateTime) (now : PyDateTime)
    (effective_on : Option String) :
    effective_status_label parse now effective_on
      = specEffectiveLabel now effective_on
          (match effective_on with | some s => parse s | none => none) := by
  unfold effective_status_label specEffectiveLabel
  match effective_on with
  | none => rfl
  | some s =>
    by_cases hs : s = ""
    · simp [hs]
    simp only [if_neg hs]
    match parse s with
    | none => rfl
    | some e =>
      by_cases haw : e.tzOffsetMinutes.isSome
      · simp [haw]
      simp only [if_neg haw, Bool.false_eq_true]
      by_cases hle : e.naiveSeconds ≤ now.naiveSeconds
      · rw [if_neg (by omega : ¬ now.naiveSeconds < e.naiveSeconds), if_pos hle]
      · have hlt : now.naiveSeconds < e.naiveSeconds := by omega
        rw [if_pos hlt, if_neg hle]
        have hd0 : 0 ≤ timedeltaDays e now :=
          Int.fdiv_nonneg (by omega) (by omega)
        set d := timedeltaDays e now with hdd
        by_cases h0 : d = 0
        · simp [h0]
        by_cases h1 : d = 1
        · simp [h0, h1]
        by_cases h2 : d < 30
        · have c : 2 ≤ d ∧ d ≤ 29 := by omega
          simp only [if_neg h0, if_neg h1, if_pos h2, if_pos c]
        · have c : ¬(2 ≤ d ∧ d ≤ 29) := by omega
          simp only [if_neg h0, if_neg h1, if_neg h2, if_neg c]

/-- C5: each source client returns an empty result on any network error,
non-success HTTP status, or JSON/XML decode failure — an empty list and
count 0 for the Federal Register client, an empty list for an RSS
client — and the result of the web aggregation with one failed source is
exactly the result with that source returning an empty payload, so one
source's failure never aborts or perturbs the sibling fetches. -/
theorem clients_fail_closed (parse : String → Option PyDateTime)
    (now : PyDateTime) (content_type source_name : String) (f : FetchFailure) :
    fetch_federal_register parse now (.error f) = ([], 0)
      ∧ fetch_osha_rss parse now content_type source_name (.error f) = []
      ∧ (∀ (content_filter year : String) (r : IndexResponses),
          indexDocuments parse now content_filter year
            { r with rulesResp := .error f }
          = indexDocuments parse now content_filter year
            { r with rulesResp := .ok { results := some [], count := some 0 } })
      ∧ (∀ (content_filter year : String) (r : IndexResponses),
          indexDocuments parse now content_filter year
            { r with directsResp := .error f }
          = indexDocuments parse now content_filter year
            { r with directsResp := .ok [] }) :=
  ⟨rfl, rfl, fun _ _ _ => rfl, fun _ _ _ => rfl⟩

/-- C6: with an active year constraint (a nonempty year that is not
"all") that parses as an integer, an RSS-derived document is kept if and
only if it has a parsed publication date whose year equals that integer —
so documents with no parsed date are excluded — and when the year does not
parse as an integer the constraint is silently dropped and the list
passes through unfiltered. -/
theorem filter_rss_by_year_spec (year : String) (docs : List Document)
    (hne : year ≠ "") (hall : year ≠ "all") :
    (∀ year_int, pyInt year = some year_int →
      ∀ d, d ∈ filter_rss_by_year year docs
        ↔ d ∈ docs ∧ ∃ t, d.pub_date = some (some t) ∧ t.year = year_int)
      ∧ (pyInt year = none → filter_rss_by_year year docs = docs) := by
  constructor
  · intro year_int hy d
    unfold filter_rss_by_year
    rw [if_pos ⟨hne, hall⟩, hy]
    rw [List.mem_filter]
    constructor
    · rintro ⟨hmem, hkeep⟩
      refine ⟨hmem, ?_⟩
      match hpd : d.pub_date with
      | some (some t) =>
        rw [hpd] at hkeep
        simp only [beq_iff_eq] at hkeep
        exact ⟨t, rfl, hkeep⟩
      | some none => rw [hpd] at hkeep; simp at hkeep
      | none => rw [hpd] at hkeep; simp at hkeep
    · rintro ⟨hmem, t, hpd, hyear⟩
      refine ⟨hmem, ?_⟩
      rw [hpd]
      simp [hyear]
  · intro hy
    unfold filter_rss_by_year
    rw [if_pos ⟨hne, hall⟩, hy]

/-- C6 witness: the year filter applied at the concrete year "2026" to a
three-document list keeps exactly the document dated in 2026. -/
theorem filter_rss_by_year_spec_witness :
    ("2026" ≠ "" ∧ "2026" ≠ "all")
      ∧ ((∀ year_int, pyInt "2026" = some year_int →
          ∀ d, d ∈ filter_rss_by_year "2026"
              [{ blankDoc with pub_date := some none },
               { blankDoc with pub_date := some (some ⟨2026, 3, 1, 0, 0, 0, none⟩) },
               { blankDoc with pub_date := some (some ⟨2025, 3, 1, 0, 0, 0, none⟩) }]
            ↔ d ∈ [{ blankDoc with pub_date := some none },
               { blankDoc with pub_date := some (some ⟨2026, 3, 1, 0, 0, 0, none⟩) },
               { blankDoc with pub_date := some (some ⟨2025, 3, 1, 0, 0, 0, none⟩) }]
              ∧ ∃ t, d.pub_date = some (some t) ∧ t.year = year_int)
        ∧ (pyInt "2026" = none → filter_rss_by_year "2026"
              [{ blankDoc with pub_date := some none },
               { blankDoc with pub_date := some (some ⟨2026, 3, 1, 0, 0, 0, none⟩) },
               { blankDoc with pub_date := some (some ⟨2025, 3, 1, 0, 0, 0, none⟩) }]
            = [{ blankDoc with pub_date := some none },
               { blankDoc with pub_date := some (some ⟨2026, 3, 1, 0, 0, 0, none⟩) },
               { blankDoc with pub_date := some (some ⟨2025, 3, 1, 0, 0, 0, none⟩) }])) :=
  ⟨⟨by decide, by decide⟩,
    filter_rss_by_year_spec "2026" _ (by decide) (by decide)⟩

theorem foldl_append_concat {α : Type} (f : α → String) (l : List α)
    (acc : String) :
    l.foldl (fun a d => a ++ f d) acc = acc ++ concatStrings (l.map f) := by
  induction l generalizing acc with
  | nil => simp [concatStrings]
  | cons d ds ih =>
    simp only [List.foldl_cons, List.map_cons]
    rw [ih]
    exact String.append_assoc _ _ _

/-- C7: when the lookback fetch yields zero documents, `send_digest`
never invokes the email transport and still reports success, provided a
nonempty API key is configured (a missing or empty key fails earlier,
before the fetch). -/
theorem send_digest_empty_fetch_success (k alert_email from_email : String)
    (parse : String → Option PyDateTime) (now : PyDateTime) (days : Nat)
    (frResp : Except FetchFailure FRPayload)
    (interpResp directResp : Except FetchFailure (List RawRssItem))
    (transport : EmailPayload → Except Unit Unit)
    (hk : k ≠ "")
    (hempty : get_all_recent_documents parse now days frResp interpResp directResp
      = []) :
    send_digest (some k) alert_email from_email parse now days frResp
      interpResp directResp transport = (none, true) := by
  simp [send_digest, hk, hempty]

/-- C7 witness: a digest run whose three upstream fetches all fail (so
the lookback fetch yields zero documents) sends nothing and returns
success. -/
theorem send_digest_empty_fetch_success_witness :
    ("rk" ≠ "")
      ∧ get_all_recent_documents (fun _ => none) ⟨2026, 10, 12, 0, 0, 0, none⟩ 1
          (.error .networkError) (.error .networkError) (.error .networkError) = []
      ∧ send_digest (some "rk") "dest" "src" (fun _ => none)
          ⟨2026, 10, 12, 0, 0, 0, none⟩ 1 (.error .networkError)
          (.error .networkError) (.error .networkError) (fun _ => .ok ())
        = (none, true) :=
  ⟨by decide, rfl,
    send_digest_empty_fetch_success "rk" "dest" "src" (fun _ => none)
      ⟨2026, 10, 12, 0, 0, 0, none⟩ 1 (.error .networkError)
      (.error .networkError) (.error .networkError) (fun _ => .ok ())
      (by decide) rfl⟩

/-- C8: in the email HTML body, an abstract longer than 300 characters is
rendered as its first 300 characters with an ellipsis appended, and an
abstract of 300 characters or fewer is rendered unchanged
(`renderHtmlItem` embeds `truncated_abstract doc.abstract` verbatim in
the rendered item). -/
theorem truncated_abstract_spec (s : String) :
    (300 < s.length → truncated_abstract s = s.take 300 ++ "...")
      ∧ (s.length ≤ 300 → truncated_abstract s = s) := by
  constructor
  · intro h
    unfold truncated_abstract
    rw [if_pos (by omega)]
  · intro h
    unfold truncated_abstract
    rw [if_neg (by omega)]

set_option maxRecDepth 4096 in
/-- C8 witness: a 301-character abstract is truncated to its first 300
characters plus an ellipsis, and a 300-character abstract is unchanged. -/
theorem truncated_abstract_spec_witness :
    (300 < (String.mk (List.replicate 301 'a')).length
      ∧ truncated_abstract (String.mk (List.replicate 301 'a'))
          = (String.mk (List.replicate 301 'a')).take 300 ++ "...")
      ∧ ((String.mk (List.replicate 300 'a')).length ≤ 300
        ∧ truncated_abstract (String.mk (List.replicate 300 'a'))
            = String.mk (List.replicate 300 'a')) :=
  ⟨⟨by decide, (truncated_abstract_spec _).1 (by decide)⟩,
    ⟨by decide, (truncated_abstract_spec _).2 (by decide)⟩⟩

set_option maxRecDepth 16384 in
/-- C9 counterexample: the plain-text digest body does not group by
content type: on two inputs whose five content-type groups coincide
(a notice then a rule, and the rule then the notice), the text bodies
differ, and the body of the first input lists the notice item before the
final-rule item, contradicting the fixed display order that puts Final
Rules before Notices. -/
theorem build_email_text_not_grouped :
    ((([noticeEmailDoc, ruleEmailDoc].filter (fun d => d.type == "Rule"))
        = ([ruleEmailDoc, noticeEmailDoc].filter (fun d => d.type == "Rule")))
      ∧ (([noticeEmailDoc, ruleEmailDoc].filter (fun d => d.type == "Proposed Rule"))
        = ([ruleEmailDoc, noticeEmailDoc].filter (fun d => d.type == "Proposed Rule")))
      ∧ (([noticeEmailDoc, ruleEmailDoc].filter (fun d => d.type == "Notice"))
        = ([ruleEmailDoc, noticeEmailDoc].filter (fun d => d.type == "Notice")))
      ∧ (([noticeEmailDoc, ruleEmailDoc].filter (fun d => d.type == "Interpretation"))
        = ([ruleEmailDoc, noticeEmailDoc].filter (fun d => d.type == "Interpretation")))
      ∧ (([noticeEmailDoc, ruleEmailDoc].filter (fun d => d.type == "Directive"))
        = ([ruleEmailDoc, noticeEmailDoc].filter (fun d => d.type == "Directive"))))
      ∧ build_email_text ⟨2026, 10, 12, 0, 0, 0, none⟩ [noticeEmailDoc, ruleEmailDoc]
          = emailTextHeader ⟨2026, 10, 12, 0, 0, 0, none⟩ 2
            ++ renderTextItem noticeEmailDoc ++ renderTextItem ruleEmailDoc
            ++ emailTextFooter
      ∧ build_email_text ⟨2026, 10, 12, 0, 0, 0, none⟩ [noticeEmailDoc, ruleEmailDoc]
          ≠ build_email_text ⟨2026, 10, 12, 0, 0, 0, none⟩ [ruleEmailDoc, noticeEmailDoc] := by
  decide

/-- C9 (amended): the HTML digest body lists the documents grouped by
content type in the fixed display order Final Rules, Proposed Rules,
Letters of Interpretation, Directives, Notices, an empty group
contributing nothing and a non-empty group contributing its heading with
its count followed by its items; the plain-text digest body instead lists
the documents in input order, each labelled with its type label. -/
theorem email_bodies_rendering (now : PyDateTime)
    (documents : List EmailDocument) :
    build_email_html now documents
      = emailHtmlHeader now documents.length
        ++ render_section "Final Rules"
            (documents.filter (fun d => d.type == "Rule")) "#c53030"
        ++ render_section "Proposed Rules"
            (documents.filter (fun d => d.type == "Proposed Rule")) "#dd6b20"
        ++ render_section "Letters of Interpretation"
            (documents.filter (fun d => d.type == "Interpretation")) "#2c7a7b"
        ++ render_section "Directives"
            (documents.filter (fun d => d.type == "Directive")) "#5a67d8"
        ++ render_section "Notices"
            (documents.filter (fun d => d.type == "Notice")) "#718096"
        ++ emailHtmlFooter
      ∧ (∀ title color, render_section title [] color = "")
      ∧ (∀ title color items, items ≠ [] →
          render_section title items color
            = section_heading title color items.length
              ++ concatStrings (items.map renderHtmlItem))
      ∧ build_email_text now documents
          = emailTextHeader now documents.length
            ++ concatStrings (documents.map renderTextItem)
            ++ emailTextFooter := by
  refine ⟨rfl, fun _ _ => rfl, ?_, ?_⟩
  · intro title color items h
    unfold render_section
    rw [if_neg h]
    exact foldl_append_concat _ _ _
  · unfold build_email_text
    rw [foldl_append_concat]

/-- C10: a Federal Register raw record whose `publication_date` is
missing or empty yields a document with no `pub_date`,
`pub_date_formatted` or `time_ago` keys at all, and it sorts as dateless
(`sort_key` falls back to `datetime.min`); a record whose
`publication_date` is present but fails to parse gets `pub_date` set to
`None`, the raw string preserved as `pub_date_formatted`, an empty
`time_ago`, and likewise sorts as dateless. -/
theorem processFRDoc_pub_date_fields (parse : String → Option PyDateTime)
    (now : PyDateTime) (raw : RawFRDoc) :
    ((raw.publication_date = none ∨ raw.publication_date = some "") →
        (processFRDoc parse now raw).pub_date = none
          ∧ (processFRDoc parse now raw).pub_date_formatted = none
          ∧ (processFRDoc parse now raw).time_ago = none
          ∧ sort_key (processFRDoc parse now raw) = datetimeMin.naiveSeconds)
      ∧ (∀ s, raw.publication_date = some s → s ≠ "" → parse s = none →
          (processFRDoc parse now raw).pub_date = some none
            ∧ (processFRDoc parse now raw).pub_date_formatted = some s
            ∧ (processFRDoc parse now raw).time_ago = some ""
            ∧ sort_key (processFRDoc parse now raw) = datetimeMin.naiveSeconds) := by
  constructor
  · rintro (h | h) <;> simp [processFRDoc, sort_key, h]
  · intro s hs hne hparse
    simp [processFRDoc, sort_key, hs, hne, hparse]

/-- C10 witness: a raw record with no `publication_date` key produces a
document with none of the three date fields, and a raw record whose
`publication_date` is "not-a-date" with a parser that rejects it produces
`pub_date = None`, the raw string as `pub_date_formatted`, an empty
`time_ago`, and both sort as dateless. -/
theorem processFRDoc_pub_date_fields_witness :
    ((processFRDoc (fun _ => none) ⟨2026, 10, 12, 0, 0, 0, none⟩ {}).pub_date = none
        ∧ (processFRDoc (fun _ => none) ⟨2026, 10, 12, 0, 0, 0, none⟩ {}).pub_date_formatted = none
        ∧ (processFRDoc (fun _ => none) ⟨2026, 10, 12, 0, 0, 0, none⟩ {}).time_ago = none
        ∧ sort_key (processFRDoc (fun _ => none) ⟨2026, 10, 12, 0, 0, 0, none⟩ {})
            = datetimeMin.naiveSeconds)
      ∧ ((processFRDoc (fun _ => none) ⟨2026, 10, 12, 0, 0, 0, none⟩
            { publication_date := some "not-a-date" }).pub_date = some none
        ∧ (processFRDoc (fun _ => none) ⟨2026, 10, 12, 0, 0, 0, none⟩
            { publication_date := some "not-a-date" }).pub_date_formatted
              = some "not-a-date"
        ∧ (processFRDoc (fun _ => none) ⟨2026, 10, 12, 0, 0, 0, none⟩
            { publication_date := some "not-a-date" }).time_ago = some ""
        ∧ sort_key (processFRDoc (fun _ => none) ⟨2026, 10, 12, 0, 0, 0, none⟩
            { publication_date := some "not-a-date" }) = datetimeMin.naiveSeconds) :=
  ⟨(processFRDoc_pub_date_fields (fun _ => none) ⟨2026, 10, 12, 0, 0, 0, none⟩ {}).1
      (Or.inl rfl),
    (processFRDoc_pub_date_fields (fun _ => none) ⟨2026, 10, 12, 0, 0, 0, none⟩
        { publication_date := some "not-a-date" }).2 "not-a-date" rfl
      (by decide) rfl⟩

/-- C2 witness: on a concrete list of two dated documents and a dateless
one, the sort is a descending permutation that places the dateless
document after every dated one. -/
theorem sortDocuments_dateless_last_witness :
    (∀ d ∈ docsForSortWitness, d.hasParsedDate = true →
        datetimeMin.naiveSeconds < sort_key d)
      ∧ ((sortDocuments docsForSortWitness).Pairwise
            (fun a b => sort_key b ≤ sort_key a)
          ∧ (sortDocuments docsForSortWitness).Perm docsForSortWitness
          ∧ (sortDocuments docsForSortWitness).Pairwise
              (fun a b => b.hasParsedDate = true → a.hasParsedDate = true)) :=
  ⟨by decide, sortDocuments_dateless_last docsForSortWitness (by decide)⟩

/-- C3 witness: on a concrete six-document list satisfying the
content-type invariant, the five groups are a partition. -/
theorem fiveGroups_partition_witness :
    (∀ d ∈ docsForGroupWitness, d.content_type ∈ contentTypes)
      ∧ ((fiveGroups docsForGroupWitness).Perm docsForGroupWitness
        ∧ (final_rules docsForGroupWitness).Sublist docsForGroupWitness
        ∧ (proposed_rules docsForGroupWitness).Sublist docsForGroupWitness
        ∧ (notices docsForGroupWitness).Sublist docsForGroupWitness
        ∧ (interpretations docsForGroupWitness).Sublist docsForGroupWitness
        ∧ (directives docsForGroupWitness).Sublist docsForGroupWitness) :=
  ⟨by decide, fiveGroups_partition docsForGroupWitness (by decide)⟩

/-- C9 witness: for a concrete one-document group, the non-empty section
renders as its heading followed by its items. -/
theorem email_bodies_rendering_witness :
    ([ruleEmailDoc] ≠ ([] : List EmailDocument))
      ∧ render_section "Final Rules" [ruleEmailDoc] "#c53030"
          = section_heading "Final Rules" "#c53030" [ruleEmailDoc].length
            ++ concatStrings ([ruleEmailDoc].map renderHtmlItem) :=
  ⟨by decide,
    (email_bodies_rendering ⟨2026, 10, 12, 0, 0, 0, none⟩ [ruleEmailDoc]).2.2.1
      "Final Rules" "#c53030" [ruleEmailDoc] (by decide)⟩
